import Mathlib

/-!
Verification development for the Mechinweb site repository.

The repository is a set of serverless request handlers (Netlify functions,
one Supabase edge function) and a React purchase page.  This file gives a
shallow embedding of the handler logic: outbound HTTP calls are modelled by
passing their outcomes as explicit parameters, JavaScript exceptions become
`Except` values, and machine-level details (HTML e-mail templates, log
output) are elided.  Numbers that the code treats as JS numbers are
modelled by `Rat`; epoch milliseconds by `Nat`.
-/

/-- HTTP method of an incoming request, as read from `event.httpMethod`
or `req.method`. -/
inductive HttpMethod where
  | OPTIONS
  | GET
  | POST
  | PUT
deriving DecidableEq

/-- Failure of an axios call, as observed by the `catch` blocks:
`error.response?.status`, `error.response?.data?.error`,
`error.response?.data?.error_description`, `error.response?.data?.message`
and `error.message`.  A `none` status models an error without a response
(network error, timeout). -/
structure HttpFailure where
  status : Option Nat
  dataError : Option String
  dataErrorDescription : Option String
  dataMessage : Option String
  message : String
deriving DecidableEq

/-- A JavaScript exception value: either a re-thrown axios error object or
an `Error` constructed from a message string. -/
inductive JsError where
  | axios (failure : HttpFailure)
  | err (msg : String)
deriving DecidableEq

/-- The `.message` property used when a handler serialises a caught error. -/
def JsError.message : JsError → String
  | .axios f => f.message
  | .err m => m

/-- JS truthiness of an environment variable: `undefined` and the empty
string are falsy. -/
def jsTruthy : Option String → Bool
  | none => false
  | some s => !(s == "")

/-- JS `a || b` for an optional string `a` with fallback `b`. -/
def jsOr (a : Option String) (b : String) : String :=
  match a with
  | some s => if s == "" then b else s
  | none => b

/-- Body of a serverless response, with the payload of successful JSON
bodies elided: `empty` is the literal `body: ''`, `jsonError` carries the
serialised error message of a failure body. -/
inductive RespBody where
  | empty
  | jsonSuccess
  | jsonError (error : String)
deriving DecidableEq

/-- A Netlify handler response: status code, whether the CORS
`Access-Control-Allow-Origin` header is present, and the body. -/
structure NetlifyResponse where
  statusCode : Nat
  cors : Bool
  body : RespBody
deriving DecidableEq

/-- Joint await of two promises, as `Promise.all([p, q])`: the result is
`ok` exactly when both are, otherwise a rejection of one failed component
(the first component is preferred, approximating rejection order). -/
def promiseAll2 {E A B : Type} : Except E A → Except E B → Except E (A × B)
  | .error e, _ => .error e
  | .ok _, .error e => .error e
  | .ok a, .ok b => .ok (a, b)

/-- Outbound HTTP request descriptor: the URL and the `timeout`
configuration attached to the call (`none` when the call sets no timeout,
as with `fetch`). -/
structure OutboundCall where
  url : String
  timeout : Option Nat
deriving DecidableEq

/-- E-mail credentials environment (`EMAIL_USER`, `EMAIL_PASSWORD`). -/
structure EmailEnv where
  emailUser : Option String
  emailPassword : Option String

namespace MailFn
/-!
Embedding of the enhanced e-mail Netlify function (`src/unnamed/part_002`):
`sendEmailWithRetry`, the four routed e-mail handlers and the top-level
handler.  SMTP operations are modelled by their outcomes.
-/

/-- Trace of one `sendEmailWithRetry` run: the returned or thrown value
(`none` when the loop body never runs), the number of send attempts made,
and the delays (in milliseconds) slept between attempts. -/
structure RetryTrace (R E : Type) where
  result : Option (Except E R)
  attempts : Nat
  delaysMs : List Nat

/-- Loop body of `sendEmailWithRetry`: `send n` is the outcome of the
`transporter.sendMail` call on attempt `n` (1-based); `left` counts the
remaining loop iterations, so the last iteration (where a failure is
re-thrown) is the one with `left = 1`.  A failure that is not on the last
attempt sleeps `Math.pow(2, attempt) * 1000` milliseconds. -/
def retryLoop {R E : Type} (send : Nat → Except E R) : Nat → Nat → RetryTrace R E
  | _, 0 => ⟨none, 0, []⟩
  | attempt, left + 1 =>
    match send attempt with
    | .ok r => ⟨some (.ok r), 1, []⟩
    | .error e =>
      if left = 0 then ⟨some (.error e), 1, []⟩
      else
        let rest := retryLoop send (attempt + 1) left
        ⟨rest.result, rest.attempts + 1, 2 ^ attempt * 1000 :: rest.delaysMs⟩

/-- Embedding of `sendEmailWithRetry(transporter, emailOptions, maxRetries)`;
every call site in the repository uses the default `maxRetries = 2`. -/
def sendEmailWithRetry {R E : Type} (send : Nat → Except E R) (maxRetries : Nat) :
    RetryTrace R E :=
  retryLoop send 1 maxRetries

/-- Request payload of a `contact_form` submission; absent JSON fields are
modelled by the empty string, which is falsy as in the source check. -/
structure ContactData where
  name : String
  email : String
  subject : String
  message : String

/-- Routed e-mail request type (`requestData.type`). -/
inductive EmailType where
  | contact_form
  | quote_request
  | welcome_email
  | payment_confirmation
  | invalid (s : String)

/-- Outcomes of the SMTP operations a request may perform: transporter
verification and the (post-retry) outcomes of the customer-facing send,
the business-notification send, and the single send used by the welcome
and payment-confirmation routes. -/
structure EmailWorld where
  verifyOutcome : Except JsError Unit
  customerSend : Except JsError Unit
  businessSend : Except JsError Unit
  singleSend : Except JsError Unit

/-- Embedding of `handleContactForm`: validates the required fields, then
issues the customer confirmation and the business notification together
and awaits them jointly with `Promise.all`. -/
def handleContactForm (d : ContactData)
    (customerSend businessSend : Except JsError Unit) : Except JsError Unit :=
  if d.name == "" || d.email == "" || d.subject == "" || d.message == "" then
    .error (.err "Missing required fields: name, email, subject, message")
  else
    (promiseAll2 customerSend businessSend).map fun _ => ()

/-- Embedding of `handleQuoteRequest`: the two e-mails are issued together
and awaited jointly with `Promise.all` (no field validation). -/
def handleQuoteRequest (customerSend businessSend : Except JsError Unit) :
    Except JsError Unit :=
  (promiseAll2 customerSend businessSend).map fun _ => ()

/-- Embedding of the top-level handler of the enhanced e-mail function.
Returns the response together with a flag recording whether any outbound
SMTP operation was attempted.  `parsed` is the result of `JSON.parse` on
the request body (`none` for invalid JSON). -/
def sendEmailHandler (env : EmailEnv) (method : HttpMethod)
    (parsed : Option (EmailType × ContactData)) (w : EmailWorld) :
    NetlifyResponse × Bool :=
  if method = HttpMethod.OPTIONS then (⟨200, true, .empty⟩, false)
  else if method ≠ HttpMethod.POST then
    (⟨405, true, .jsonError "Method not allowed"⟩, false)
  else
    match parsed with
    | none => (⟨500, true, .jsonError "Invalid JSON in request body"⟩, false)
    | some (ty, d) =>
      if !(jsTruthy env.emailUser && jsTruthy env.emailPassword) then
        (⟨500, true, .jsonError "Email credentials not configured. Please set EMAIL_USER and EMAIL_PASSWORD in Netlify environment variables."⟩, false)
      else
        match w.verifyOutcome with
        | .error e =>
          (⟨500, true, .jsonError ("Email configuration invalid: " ++ e.message)⟩, true)
        | .ok _ =>
          match (match ty with
            | .contact_form => handleContactForm d w.customerSend w.businessSend
            | .quote_request => handleQuoteRequest w.customerSend w.businessSend
            | .welcome_email => w.singleSend
            | .payment_confirmation => w.singleSend
            | .invalid s => .error (.err ("Invalid email type: " ++ s))) with
          | .ok _ => (⟨200, true, .jsonSuccess⟩, true)
          | .error e => (⟨500, true, .jsonError e.message⟩, true)

end MailFn

namespace MailPlain
/-!
Embedding of the plain e-mail Netlify function
(`src/netlify/functions/sendEmail.js`).  Its route handlers send with
`transporter.sendMail` directly (no retry); the contact-form and
quote-request routes join the two sends with `Promise.all`.
-/

/-- Embedding of `handleContactForm`: the customer confirmation and the
business notification are awaited jointly. -/
def handleContactForm (customerSend businessSend : Except JsError Unit) :
    Except JsError Unit :=
  (promiseAll2 customerSend businessSend).map fun _ => ()

/-- Embedding of `handleQuoteRequest`. -/
def handleQuoteRequest (customerSend businessSend : Except JsError Unit) :
    Except JsError Unit :=
  (promiseAll2 customerSend businessSend).map fun _ => ()

/-- Embedding of the top-level handler of `sendEmail.js`.  `parsed` is the
result of `JSON.parse(event.body)` — a thrown parse error carries its own
message; `createOutcome` is the outcome of `createEmailTransporter()`
(the nodemailer library surface belongs to the external module and is
abstracted by this parameter). -/
def sendEmailHandler (env : EmailEnv) (method : HttpMethod)
    (parsed : Except String (MailFn.EmailType × MailFn.ContactData))
    (createOutcome : Except JsError Unit) (w : MailFn.EmailWorld) :
    NetlifyResponse × Bool :=
  if method = HttpMethod.OPTIONS then (⟨200, true, .empty⟩, false)
  else if method ≠ HttpMethod.POST then
    (⟨405, true, .jsonError "Method not allowed"⟩, false)
  else
    match parsed with
    | .error msg => (⟨500, true, .jsonError msg⟩, false)
    | .ok (ty, _) =>
      if !(jsTruthy env.emailUser && jsTruthy env.emailPassword) then
        (⟨500, true, .jsonError "Email credentials not configured. Please set EMAIL_USER and EMAIL_PASSWORD in Netlify environment variables."⟩, false)
      else
        match createOutcome with
        | .error e => (⟨500, true, .jsonError e.message⟩, false)
        | .ok _ =>
          match (match ty with
            | .contact_form => handleContactForm w.customerSend w.businessSend
            | .quote_request => handleQuoteRequest w.customerSend w.businessSend
            | .welcome_email => w.singleSend
            | .payment_confirmation => w.singleSend
            | .invalid _ => .error (.err "Invalid email type")) with
          | .ok _ => (⟨200, true, .jsonSuccess⟩, true)
          | .error e => (⟨500, true, .jsonError e.message⟩, true)

end MailPlain

namespace MailTest
/-!
Embedding of the e-mail configuration test function (first document of
`src/unnamed/part_001`).
-/

/-- Embedding of the test-email handler: CORS preflight, credential
check, transporter verification, optional test send on POST. -/
def testEmailHandler (env : EmailEnv) (method : HttpMethod)
    (verifyOutcome sendOutcome : Except JsError Unit) :
    NetlifyResponse × Bool :=
  if method = HttpMethod.OPTIONS then (⟨200, true, .empty⟩, false)
  else if !(jsTruthy env.emailUser && jsTruthy env.emailPassword) then
    (⟨500, true, .jsonError "Email credentials not configured"⟩, false)
  else
    match verifyOutcome with
    | .error e => (⟨500, true, .jsonError e.message⟩, true)
    | .ok _ =>
      if method = HttpMethod.POST then
        match sendOutcome with
        | .error e => (⟨500, true, .jsonError e.message⟩, true)
        | .ok _ => (⟨200, true, .jsonSuccess⟩, true)
      else (⟨200, true, .jsonSuccess⟩, true)

end MailTest

namespace MailDebug
/-!
Embedding of the nodemailer debugging handler (second document of
`src/unnamed/part_001`).  This handler never inspects `event.httpMethod`:
it checks the e-mail credentials and then attempts to create and verify a
transporter for every request, OPTIONS preflights included, and none of
its responses carry CORS headers.
-/

/-- Embedding of the nodemailer debug handler.  `testOutcome` is the
outcome of the transporter creation and `transporter.verify()` step. -/
def debugEmailHandler (env : EmailEnv) (_method : HttpMethod)
    (testOutcome : Except JsError Unit) : NetlifyResponse × Bool :=
  if !(jsTruthy env.emailUser && jsTruthy env.emailPassword) then
    (⟨500, false, .jsonError "Email credentials not configured."⟩, false)
  else
    match testOutcome with
    | .ok _ => (⟨200, false, .jsonSuccess⟩, true)
    | .error _ => (⟨500, false, .jsonError "Test failed."⟩, true)

end MailDebug

/-! Shared Zoho data model: environment, customer and invoice DTOs. -/

/-- Zoho environment variables (`ZOHO_CLIENT_ID`, `ZOHO_CLIENT_SECRET`,
`ZOHO_REFRESH_TOKEN`, `ZOHO_ORGANIZATION_ID`). -/
structure ZohoEnv where
  clientId : Option String
  clientSecret : Option String
  refreshToken : Option String
  organizationId : Option String

/-- The four Zoho variable names in the order the validation pushes them. -/
def zohoVarNames : List String :=
  ["ZOHO_CLIENT_ID", "ZOHO_CLIENT_SECRET", "ZOHO_REFRESH_TOKEN", "ZOHO_ORGANIZATION_ID"]

/-- Embedding of the `missing` list built by `validateZohoConfig` in
`zohoIntegration.js` (the identical inline checks of `createPayment.js`
and of the test function push the same names in the same order). -/
def missingZohoVars (env : ZohoEnv) : List String :=
  (if jsTruthy env.clientId then [] else ["ZOHO_CLIENT_ID"]) ++
  (if jsTruthy env.clientSecret then [] else ["ZOHO_CLIENT_SECRET"]) ++
  (if jsTruthy env.refreshToken then [] else ["ZOHO_REFRESH_TOKEN"]) ++
  (if jsTruthy env.organizationId then [] else ["ZOHO_ORGANIZATION_ID"])

/-- Embedding of `validateZohoConfig`: throws when any variable is missing,
with a message joining the missing names. -/
def validateZohoConfig (env : ZohoEnv) : Except String Unit :=
  let missing := missingZohoVars env
  if 0 < missing.length then
    .error ("Missing Zoho configuration: " ++ String.intercalate ", " missing)
  else .ok ()

/-- Incoming customer payload (`customerData`): optional fields model the
`|| ''` defaults applied by the handlers. -/
structure CustomerData where
  name : String
  email : String
  phone : Option String
  company : Option String

/-- The contact payload posted to the vendor contacts endpoint. -/
structure ContactPayload where
  contact_name : String
  company_name : String
  email : String
  phone : String
deriving DecidableEq

/-- Embedding of the `customerPayload` object literal (identical in all
handlers). -/
def zohoCustomerPayload (d : CustomerData) : ContactPayload :=
  { contact_name := d.name
    company_name := jsOr d.company ""
    email := d.email
    phone := jsOr d.phone "" }

/-- A vendor contact record as returned by the contacts endpoints. -/
structure Contact where
  contact_id : String
  contact_name : String
  email : String
deriving DecidableEq

/-- Body of a successful token exchange. -/
structure TokenData where
  access_token : String
deriving DecidableEq

/-- One incoming service line (`serviceItems[i]`). -/
structure ServiceItem where
  serviceName : String
  packageType : String
  quantity : Nat
  unitPrice : ℚ
  totalPrice : ℚ
deriving DecidableEq

/-- One vendor invoice line item as built by the handlers. -/
structure LineItem where
  name : String
  description : String
  rate : ℚ
  quantity : Nat
  item_total : ℚ
deriving DecidableEq

/-- Incoming invoice request data (`customerId`, `serviceItems`,
`currency`, optional `notes`). -/
structure InvoiceData where
  customerId : String
  serviceItems : List ServiceItem
  currency : String
  notes : Option String

/-- A vendor invoice as returned by the invoices endpoint. -/
structure VendorInvoice where
  invoice_id : String
  invoice_number : String
  total : ℚ
  status : String
  last_payment_date : Option String
deriving DecidableEq

/-- JSON-ish value for modelling the fields of a returned summary object. -/
inductive JVal where
  | s (v : String)
  | q (v : ℚ)
deriving DecidableEq

/-- Calendar day (UTC epoch day) of an epoch-millisecond timestamp; this is
the day rendered by `new Date(ms).toISOString().split('T')[0]`. -/
def epochDay (ms : Nat) : Nat := ms / 86400000

/-- The invoice payload posted to the vendor invoices endpoint; dates are
carried as epoch days. -/
structure InvoicePayload where
  customer_id : String
  invoice_number : String
  dateDay : Nat
  dueDateDay : Nat
  line_items : List LineItem
  notes : String
  terms : String
  currency_code : String
  is_inclusive_tax : Option Bool
deriving DecidableEq

namespace NetlifyZoho
/-!
Embedding of the first handler document of
`src/netlify/functions/zohoIntegration.js` (lines 1-392).
-/

/-- Error classification of a failed token exchange (`getZohoAccessToken`
catch block): 400 is mapped to an invalid-credentials message, 401 to a
refresh-token-expired message, anything else to a generic message carrying
the underlying error text. -/
def tokenErrorMessage (e : HttpFailure) : String :=
  if e.status = some 400 then
    "Invalid Zoho credentials. Please check ZOHO_CLIENT_ID, ZOHO_CLIENT_SECRET, and ZOHO_REFRESH_TOKEN."
  else if e.status = some 401 then
    "Zoho refresh token expired. Please regenerate the refresh token."
  else
    "Zoho authentication failed: " ++ e.message

/-- Embedding of `getZohoAccessToken`: returns the access token of a
successful exchange, otherwise throws the classified error. -/
def getZohoAccessToken (out : Except HttpFailure TokenData) : Except JsError TokenData :=
  match out with
  | .ok d => .ok d
  | .error e => .error (.err (tokenErrorMessage e))

/-- Embedding of `findZohoCustomer`: returns the id of the first contact
found for the email; an empty result or a failed call is re-thrown as a
`Customer lookup failed` error. -/
def findZohoCustomer (_email : String) (get : Except HttpFailure (List Contact)) :
    Except JsError String :=
  match get with
  | .ok contacts =>
    match contacts with
    | c :: _ => .ok c.contact_id
    | [] => .error (.err ("Customer lookup failed: " ++ "Customer not found"))
  | .error e => .error (.err ("Customer lookup failed: " ++ e.message))

/-- Embedding of `createZohoCustomer`: on a successful POST the created
contact id is returned; on a 400 failure the result of the fallback search
by the customer email is returned; any other failure is re-thrown.  The
second component records the email queried by a fallback search (`none`
when no search was made). -/
def createZohoCustomer (d : CustomerData) (post : Except HttpFailure Contact)
    (search : Except HttpFailure (List Contact)) :
    Except JsError String × Option String :=
  match post with
  | .ok c => (.ok c.contact_id, none)
  | .error e =>
    if e.status = some 400 then (findZohoCustomer d.email search, some d.email)
    else (.error (.axios e), none)

/-- Embedding of the line-item mapping inside `createZohoInvoice`. -/
def mkLineItem (item : ServiceItem) : LineItem :=
  { name := item.serviceName
    description := item.serviceName ++ " - " ++ item.packageType ++
      " Package (Quantity: " ++ toString item.quantity ++ ")"
    rate := item.unitPrice
    quantity := item.quantity
    item_total := item.totalPrice }

/-- Embedding of the `invoicePayload` object literal: `nowMs` is
`Date.now()` at the time of the call. -/
def invoicePayload (customerId : String) (nowMs : Nat) (d : InvoiceData) : InvoicePayload :=
  { customer_id := customerId
    invoice_number := "INV-" ++ toString nowMs
    dateDay := epochDay nowMs
    dueDateDay := epochDay (nowMs + 30 * 24 * 60 * 60 * 1000)
    line_items := d.serviceItems.map mkLineItem
    notes := jsOr d.notes "Thank you for choosing Mechinweb!"
    terms := "Payment due within 30 days."
    currency_code := d.currency
    is_inclusive_tax := some false }

/-- The summary object returned by `createZohoInvoice`, as an ordered list
of JSON fields. -/
def invoiceSummary (customerId : String) (inv : VendorInvoice) : List (String × JVal) :=
  [("invoice_id", .s inv.invoice_id),
   ("invoice_number", .s inv.invoice_number),
   ("payment_url", .s ("https://invoice.zoho.in/invoices/" ++ inv.invoice_id ++ "/payment")),
   ("total", .q inv.total),
   ("status", .s inv.status),
   ("customer_id", .s customerId)]

/-- Embedding of `createZohoInvoice`: builds and posts the payload, then
reshapes the vendor invoice into the summary; a failed POST is re-thrown
with the vendor data message when present. -/
def createZohoInvoice (customerId : String) (nowMs : Nat) (d : InvoiceData)
    (post : Except HttpFailure VendorInvoice) :
    InvoicePayload × Except JsError (List (String × JVal)) :=
  let payload := invoicePayload customerId nowMs d
  match post with
  | .ok inv => (payload, .ok (invoiceSummary customerId inv))
  | .error e =>
    (payload, .error (.err ("Invoice creation failed: " ++ jsOr e.dataMessage e.message)))

/-- Status projection returned by `getZohoInvoiceStatus`. -/
structure InvoiceStatus where
  status : String
  total : ℚ
  payment_date : Option String
deriving DecidableEq

/-- Embedding of `getZohoInvoiceStatus`. -/
def getZohoInvoiceStatus (get : Except HttpFailure VendorInvoice) :
    Except JsError InvoiceStatus :=
  match get with
  | .ok inv => .ok ⟨inv.status, inv.total, inv.last_payment_date⟩
  | .error e => .error (.err ("Invoice status check failed: " ++ e.message))

/-- Route derived from the request path and method by the handler. -/
inductive ZIRoute where
  | customers
  | invoices
  | invoiceGet (invoiceId : String)
  | other

/-- Outcomes of the outbound calls a request may perform, together with
the parsed request data and the current time. -/
structure ZIWorld where
  tokenOutcome : Except HttpFailure TokenData
  customerData : CustomerData
  invoiceData : InvoiceData
  nowMs : Nat
  postContact : Except HttpFailure Contact
  searchContacts : Except HttpFailure (List Contact)
  postInvoice : Except HttpFailure VendorInvoice
  getInvoice : Except HttpFailure VendorInvoice

/-- Embedding of the top-level handler: CORS preflight, configuration
validation, token acquisition, then routing; every thrown error is caught
and surfaced as a 500 JSON body with `success: false` and the error
message.  The second component records whether any outbound call was
attempted. -/
def handler (env : ZohoEnv) (method : HttpMethod) (route : ZIRoute) (w : ZIWorld) :
    NetlifyResponse × Bool :=
  if method = HttpMethod.OPTIONS then (⟨200, true, .empty⟩, false)
  else
    match validateZohoConfig env with
    | .error msg => (⟨500, true, .jsonError msg⟩, false)
    | .ok _ =>
      match getZohoAccessToken w.tokenOutcome with
      | .error e => (⟨500, true, .jsonError e.message⟩, true)
      | .ok _ =>
        match method, route with
        | HttpMethod.POST, ZIRoute.customers =>
          match (createZohoCustomer w.customerData w.postContact w.searchContacts).1 with
          | .ok _ => (⟨200, true, .jsonSuccess⟩, true)
          | .error e => (⟨500, true, .jsonError e.message⟩, true)
        | HttpMethod.POST, ZIRoute.invoices =>
          match (createZohoInvoice w.invoiceData.customerId w.nowMs w.invoiceData w.postInvoice).2 with
          | .ok _ => (⟨200, true, .jsonSuccess⟩, true)
          | .error e => (⟨500, true, .jsonError e.message⟩, true)
        | HttpMethod.GET, ZIRoute.invoiceGet _ =>
          match getZohoInvoiceStatus w.getInvoice with
          | .ok _ => (⟨200, true, .jsonSuccess⟩, true)
          | .error e => (⟨500, true, .jsonError e.message⟩, true)
        | _, _ => (⟨404, true, .jsonError "Endpoint not found"⟩, true)

/-- The token-exchange request with its axios `timeout` literal. -/
def tokenRequest : OutboundCall :=
  ⟨"https://accounts.zoho.in/oauth/v2/token", some 10000⟩

/-- The contact-creation request with its axios `timeout` literal. -/
def contactsCreateRequest : OutboundCall :=
  ⟨"https://invoice.zoho.in/api/v3/contacts", some 15000⟩

/-- The contact-search request with its axios `timeout` literal. -/
def contactsSearchRequest : OutboundCall :=
  ⟨"https://invoice.zoho.in/api/v3/contacts", some 15000⟩

/-- The invoice-creation request with its axios `timeout` literal. -/
def invoicesCreateRequest : OutboundCall :=
  ⟨"https://invoice.zoho.in/api/v3/invoices", some 20000⟩

/-- The invoice-status request with its axios `timeout` literal. -/
def invoiceStatusRequest (invoiceId : String) : OutboundCall :=
  ⟨"https://invoice.zoho.in/api/v3/invoices/" ++ invoiceId, some 15000⟩

end NetlifyZoho

namespace NetlifyZohoB
/-!
Embedding of the third handler document of
`src/netlify/functions/zohoIntegration.js` (lines 727-1273): the variant
whose token-exchange catch block subdivides status 400 by the vendor error
code and maps status 401 to a generic message.
-/

/-- Error classification of a failed token exchange in this variant. -/
def tokenErrorMessage (e : HttpFailure) : String :=
  if e.status = some 400 then
    if e.dataError = some "invalid_grant" then
      "Zoho refresh token has expired. Please regenerate the refresh token in Zoho Developer Console."
    else if e.dataError = some "invalid_client" then
      "Invalid Zoho client credentials. Please check ZOHO_CLIENT_ID and ZOHO_CLIENT_SECRET."
    else
      "Zoho token error: " ++ jsOr e.dataErrorDescription (jsOr e.dataError "undefined")
  else if e.status = some 401 then
    "Zoho authentication failed. Please check your credentials."
  else
    "Zoho token request failed: " ++ e.message

/-- Embedding of this variant of `getZohoAccessToken`, including the
missing-access-token guard inside the `try` block (whose thrown error has
no response and therefore lands in the final catch branch). -/
def getZohoAccessToken (out : Except HttpFailure TokenData) : Except JsError TokenData :=
  match out with
  | .ok d =>
    if d.access_token == "" then
      .error (.err ("Zoho token request failed: " ++ "Invalid token response: missing access_token"))
    else .ok d
  | .error e => .error (.err (tokenErrorMessage e))

/-- The token-exchange request of this variant (`timeout: 15000`). -/
def tokenRequest : OutboundCall :=
  ⟨"https://accounts.zoho.in/oauth/v2/token", some 15000⟩

/-- The connection-test request (`testZohoConnection`, `timeout: 15000`). -/
def testConnectionRequest : OutboundCall :=
  ⟨"https://invoice.zoho.in/api/v3/contacts", some 15000⟩

/-- The contact-creation request of this variant. -/
def contactsCreateRequest : OutboundCall :=
  ⟨"https://invoice.zoho.in/api/v3/contacts", some 15000⟩

/-- The contact-search request of this variant. -/
def contactsSearchRequest : OutboundCall :=
  ⟨"https://invoice.zoho.in/api/v3/contacts", some 15000⟩

/-- The invoice-creation request of this variant. -/
def invoicesCreateRequest : OutboundCall :=
  ⟨"https://invoice.zoho.in/api/v3/invoices", some 20000⟩

/-- The invoice-status request of this variant. -/
def invoiceStatusRequest (invoiceId : String) : OutboundCall :=
  ⟨"https://invoice.zoho.in/api/v3/invoices/" ++ invoiceId, some 15000⟩

end NetlifyZohoB

namespace PayFn
/-!
Embedding of `src/netlify/functions/createPayment.js`.
-/

/-- Embedding of `getZohoAccessToken`: any failure is re-thrown as a
generic message carrying the vendor error code when present, else the
underlying error text. -/
def getZohoAccessToken (out : Except HttpFailure TokenData) : Except JsError TokenData :=
  match out with
  | .ok d => .ok d
  | .error e =>
    .error (.err ("Zoho authentication failed: " ++ jsOr e.dataError e.message))

/-- Embedding of `findZohoCustomer`: returns the id of the first contact
found; an empty result throws `Customer not found`, and any error is
re-thrown unchanged. -/
def findZohoCustomer (_email : String) (get : Except HttpFailure (List Contact)) :
    Except JsError String :=
  match get with
  | .ok contacts =>
    match contacts with
    | c :: _ => .ok c.contact_id
    | [] => .error (.err "Customer not found")
  | .error e => .error (.axios e)

/-- Embedding of `createZohoCustomer`: a successful POST returns the
created contact id; a 400 failure falls back to the search by the customer
email; any other failure is re-thrown.  The second component records the
email queried by a fallback search. -/
def createZohoCustomer (d : CustomerData) (post : Except HttpFailure Contact)
    (search : Except HttpFailure (List Contact)) :
    Except JsError String × Option String :=
  match post with
  | .ok c => (.ok c.contact_id, none)
  | .error e =>
    if e.status = some 400 then (findZohoCustomer d.email search, some d.email)
    else (.error (.axios e), none)

/-- Embedding of the line-item mapping of this handler (its description
omits the quantity suffix). -/
def mkLineItem (item : ServiceItem) : LineItem :=
  { name := item.serviceName
    description := item.serviceName ++ " - " ++ item.packageType ++ " Package"
    rate := item.unitPrice
    quantity := item.quantity
    item_total := item.totalPrice }

/-- Embedding of the `invoicePayload` object literal of this handler
(no `is_inclusive_tax` field). -/
def invoicePayload (customerId : String) (nowMs : Nat) (d : InvoiceData) : InvoicePayload :=
  { customer_id := customerId
    invoice_number := "INV-" ++ toString nowMs
    dateDay := epochDay nowMs
    dueDateDay := epochDay (nowMs + 30 * 24 * 60 * 60 * 1000)
    line_items := d.serviceItems.map mkLineItem
    notes := jsOr d.notes "Thank you for choosing Mechinweb!"
    terms := "Payment due within 30 days."
    currency_code := d.currency
    is_inclusive_tax := none }

/-- The summary object returned by this `createZohoInvoice`, as an ordered
list of JSON fields. -/
def invoiceSummary (inv : VendorInvoice) : List (String × JVal) :=
  [("invoice_id", .s inv.invoice_id),
   ("invoice_number", .s inv.invoice_number),
   ("payment_url", .s ("https://invoice.zoho.com/invoices/" ++ inv.invoice_id ++ "/payment")),
   ("total", .q inv.total),
   ("status", .s inv.status)]

/-- Embedding of `createZohoInvoice` of this handler. -/
def createZohoInvoice (customerId : String) (nowMs : Nat) (d : InvoiceData)
    (post : Except HttpFailure VendorInvoice) :
    InvoicePayload × Except JsError (List (String × JVal)) :=
  let payload := invoicePayload customerId nowMs d
  match post with
  | .ok inv => (payload, .ok (invoiceSummary inv))
  | .error e =>
    (payload, .error (.err ("Invoice creation failed: " ++ jsOr e.dataMessage e.message)))

/-- Outcomes of the outbound calls a payment request may perform. -/
structure CPWorld where
  tokenOutcome : Except HttpFailure TokenData
  customerData : CustomerData
  invoiceData : InvoiceData
  nowMs : Nat
  postContact : Except HttpFailure Contact
  searchContacts : Except HttpFailure (List Contact)
  postInvoice : Except HttpFailure VendorInvoice

/-- Embedding of the top-level `createPayment` handler: CORS preflight,
method check (non-POST is rejected with 405 before any validation),
inline configuration validation, token, customer, invoice. -/
def handler (env : ZohoEnv) (method : HttpMethod) (w : CPWorld) :
    NetlifyResponse × Bool :=
  if method = HttpMethod.OPTIONS then (⟨200, true, .empty⟩, false)
  else if method ≠ HttpMethod.POST then
    (⟨405, true, .jsonError "Method not allowed"⟩, false)
  else
    match validateZohoConfig env with
    | .error msg => (⟨500, true, .jsonError msg⟩, false)
    | .ok _ =>
      match getZohoAccessToken w.tokenOutcome with
      | .error e => (⟨500, true, .jsonError e.message⟩, true)
      | .ok _ =>
        match (createZohoCustomer w.customerData w.postContact w.searchContacts).1 with
        | .error e => (⟨500, true, .jsonError e.message⟩, true)
        | .ok cid =>
          match (createZohoInvoice cid w.nowMs w.invoiceData w.postInvoice).2 with
          | .error e => (⟨500, true, .jsonError e.message⟩, true)
          | .ok _ => (⟨200, true, .jsonSuccess⟩, true)

/-- The token-exchange request with its axios `timeout` literal. -/
def tokenRequest : OutboundCall :=
  ⟨"https://accounts.zoho.com/oauth/v2/token", some 10000⟩

/-- The contact-creation request with its axios `timeout` literal. -/
def contactsCreateRequest : OutboundCall :=
  ⟨"https://invoice.zoho.com/api/v3/contacts", some 15000⟩

/-- The contact-search request with its axios `timeout` literal. -/
def contactsSearchRequest : OutboundCall :=
  ⟨"https://invoice.zoho.com/api/v3/contacts", some 15000⟩

/-- The invoice-creation request with its axios `timeout` literal. -/
def invoicesCreateRequest : OutboundCall :=
  ⟨"https://invoice.zoho.com/api/v3/invoices", some 20000⟩

end PayFn

namespace ZohoTest
/-!
Embedding of the Zoho configuration test function
(`src/unnamed/part_000`).
-/

/-- Error classification of the catch block for failures carrying a
response; the `statusText` fallback and the network-level special cases
(timeout, unreachable host) are summarised by the underlying `e.message`. -/
def testErrorMessage (e : HttpFailure) : String :=
  match e.status with
  | some st =>
    if st = 400 then
      "Invalid Zoho credentials. Please check your ZOHO_CLIENT_ID, ZOHO_CLIENT_SECRET, and ZOHO_REFRESH_TOKEN."
    else if st = 401 then
      "Zoho refresh token expired. Please regenerate your refresh token."
    else if st = 403 then
      "Access denied. Please check your ZOHO_ORGANIZATION_ID and API permissions."
    else
      "API Error " ++ toString st ++ ": " ++ jsOr e.dataError e.message
  | none => e.message

/-- Outcomes of the two outbound calls of the test function. -/
structure TestWorld where
  tokenOutcome : Except HttpFailure TokenData
  apiTest : Except HttpFailure (List Contact)

/-- Embedding of the test handler: CORS preflight, then the missing-variable
check (responding directly with a 500), then a token exchange and a probe
call to the contacts endpoint. -/
def handler (env : ZohoEnv) (method : HttpMethod) (w : TestWorld) :
    NetlifyResponse × Bool :=
  if method = HttpMethod.OPTIONS then (⟨200, true, .empty⟩, false)
  else
    let missing := missingZohoVars env
    if 0 < missing.length then
      (⟨500, true, .jsonError ("Missing Zoho configuration: " ++ String.intercalate ", " missing)⟩, false)
    else
      match w.tokenOutcome with
      | .error e => (⟨500, true, .jsonError (testErrorMessage e)⟩, true)
      | .ok _ =>
        match w.apiTest with
        | .error e => (⟨500, true, .jsonError (testErrorMessage e)⟩, true)
        | .ok _ => (⟨200, true, .jsonSuccess⟩, true)

/-- The token-exchange request with its axios `timeout` literal. -/
def tokenRequest : OutboundCall :=
  ⟨"https://accounts.zoho.com/oauth/v2/token", some 10000⟩

/-- The contacts probe request with its axios `timeout` literal. -/
def contactsProbeRequest : OutboundCall :=
  ⟨"https://invoice.zoho.com/api/v3/contacts", some 15000⟩

end ZohoTest

namespace SBZoho
/-!
Embedding of the Supabase edge function
(`src/supabase/functions/zoho-integration/index.ts`).  Calls are made with
`fetch` (no timeout option); failures are signalled by `response.ok`.
-/

/-- A `fetch` response: `ok`, `status`, the parsed JSON body (meaningful
when `ok`), and the error text read on failure. -/
structure FetchResp (α : Type) where
  ok : Bool
  status : Nat
  body : α
  errText : String

/-- Embedding of `getZohoAccessToken`: throws on a non-ok response with
the status and error text. -/
def getZohoAccessToken (resp : FetchResp TokenData) : Except JsError TokenData :=
  if resp.ok then .ok resp.body
  else
    .error (.err ("Failed to get Zoho access token: " ++ toString resp.status ++ " " ++ resp.errText))

/-- Envelope of the contact-creation response body (`data.contact`). -/
structure ContactEnvelope where
  contact : Contact
deriving DecidableEq

/-- Embedding of `findZohoCustomer`: fetches its own token, then returns
the first contact found for the email. -/
def findZohoCustomer (_email : String) (tokenResp : FetchResp TokenData)
    (resp : FetchResp (List Contact)) : Except JsError Contact :=
  match getZohoAccessToken tokenResp with
  | .error e => .error e
  | .ok _ =>
    if resp.ok then
      match resp.body with
      | [] => .error (.err "Customer not found")
      | c :: _ => .ok c
    else .error (.err "Customer not found and could not be created")

/-- Embedding of `createZohoCustomer`: on any non-ok creation response —
whatever the status — the function falls back to the search by the
customer email; there is no status check.  The second component records
the email queried by a fallback search. -/
def createZohoCustomer (d : CustomerData) (tokenResp : FetchResp TokenData)
    (createResp : FetchResp ContactEnvelope) (findTokenResp : FetchResp TokenData)
    (findResp : FetchResp (List Contact)) :
    Except JsError Contact × Option String :=
  match getZohoAccessToken tokenResp with
  | .error e => (.error e, none)
  | .ok _ =>
    if createResp.ok then (.ok createResp.body.contact, none)
    else (findZohoCustomer d.email findTokenResp findResp, some d.email)

/-- Embedding of the line-item mapping of the edge function. -/
def mkLineItem (item : ServiceItem) : LineItem :=
  { name := item.serviceName
    description := item.serviceName ++ " - " ++ item.packageType ++
      " Package (Quantity: " ++ toString item.quantity ++ ")"
    rate := item.unitPrice
    quantity := item.quantity
    item_total := item.totalPrice }

/-- Embedding of the `invoicePayload` object literal of the edge function
(no `is_inclusive_tax` field). -/
def invoicePayload (nowMs : Nat) (d : InvoiceData) : InvoicePayload :=
  { customer_id := d.customerId
    invoice_number := "INV-" ++ toString nowMs
    dateDay := epochDay nowMs
    dueDateDay := epochDay (nowMs + 30 * 24 * 60 * 60 * 1000)
    line_items := d.serviceItems.map mkLineItem
    notes := jsOr d.notes "Thank you for choosing Mechinweb!"
    terms := "Payment due within 30 days."
    currency_code := d.currency
    is_inclusive_tax := none }

/-- The summary object returned by the edge `createZohoInvoice`, as an
ordered list of JSON fields. -/
def invoiceSummary (inv : VendorInvoice) : List (String × JVal) :=
  [("invoice_id", .s inv.invoice_id),
   ("invoice_number", .s inv.invoice_number),
   ("payment_url", .s ("https://invoice.zoho.com/invoices/" ++ inv.invoice_id ++ "/payment")),
   ("total", .q inv.total),
   ("status", .s inv.status)]

/-- Embedding of the edge `createZohoInvoice`: token, payload, POST,
summary reshaping. -/
def createZohoInvoice (tokenResp : FetchResp TokenData) (nowMs : Nat) (d : InvoiceData)
    (postResp : FetchResp VendorInvoice) :
    Except JsError (InvoicePayload × List (String × JVal)) :=
  match getZohoAccessToken tokenResp with
  | .error e => .error e
  | .ok _ =>
    if postResp.ok then .ok (invoicePayload nowMs d, invoiceSummary postResp.body)
    else
      .error (.err ("Failed to create Zoho invoice: " ++ toString postResp.status ++ " " ++ postResp.errText))

/-- Embedding of `getZohoInvoice`. -/
def getZohoInvoice (tokenResp : FetchResp TokenData) (resp : FetchResp VendorInvoice) :
    Except JsError VendorInvoice :=
  match getZohoAccessToken tokenResp with
  | .error e => .error e
  | .ok _ => if resp.ok then .ok resp.body else .error (.err "Invoice not found")

/-- A `Response` of the edge function: status, CORS headers, and a body
that is `none` for `Response(null)`. -/
structure SBResponse where
  status : Nat
  corsHdrs : Bool
  body : Option RespBody
deriving DecidableEq

/-- Route matched from the request path. -/
inductive SBRoute where
  | token
  | customers
  | invoices
  | invoiceGet (id : String)
  | other

/-- Request data and outcomes of every `fetch` a request may perform. -/
structure SBWorld where
  customerData : CustomerData
  invoiceData : InvoiceData
  nowMs : Nat
  tokenResp : FetchResp TokenData
  createContactResp : FetchResp ContactEnvelope
  findTokenResp : FetchResp TokenData
  findContactsResp : FetchResp (List Contact)
  invTokenResp : FetchResp TokenData
  createInvoiceResp : FetchResp VendorInvoice
  getTokenResp : FetchResp TokenData
  getInvoiceResp : FetchResp VendorInvoice

/-- Embedding of the `Deno.serve` handler: OPTIONS preflight, then a
credentials check that requires only `ZOHO_CLIENT_ID`, `ZOHO_CLIENT_SECRET`
and `ZOHO_REFRESH_TOKEN` (the organization id is not validated), then
routing; thrown errors become 500 JSON bodies.  The second component
records whether any outbound call was attempted. -/
def serve (env : ZohoEnv) (method : HttpMethod) (route : SBRoute) (w : SBWorld) :
    SBResponse × Bool :=
  if method = HttpMethod.OPTIONS then (⟨200, true, none⟩, false)
  else if !(jsTruthy env.clientId && jsTruthy env.clientSecret && jsTruthy env.refreshToken) then
    (⟨500, true, some (.jsonError "Zoho credentials not configured. Please check ZOHO_CLIENT_ID, ZOHO_CLIENT_SECRET, and ZOHO_REFRESH_TOKEN environment variables.")⟩, false)
  else
    match route with
    | SBRoute.token =>
      match getZohoAccessToken w.tokenResp with
      | .ok _ => (⟨200, true, some .jsonSuccess⟩, true)
      | .error e => (⟨500, true, some (.jsonError e.message)⟩, true)
    | SBRoute.customers =>
      match (createZohoCustomer w.customerData w.tokenResp w.createContactResp
          w.findTokenResp w.findContactsResp).1 with
      | .ok _ => (⟨200, true, some .jsonSuccess⟩, true)
      | .error e => (⟨500, true, some (.jsonError e.message)⟩, true)
    | SBRoute.invoices =>
      match createZohoInvoice w.invTokenResp w.nowMs w.invoiceData w.createInvoiceResp with
      | .ok _ => (⟨200, true, some .jsonSuccess⟩, true)
      | .error e => (⟨500, true, some (.jsonError e.message)⟩, true)
    | SBRoute.invoiceGet _ =>
      match getZohoInvoice w.getTokenResp w.getInvoiceResp with
      | .ok _ => (⟨200, true, some .jsonSuccess⟩, true)
      | .error e => (⟨500, true, some (.jsonError e.message)⟩, true)
    | SBRoute.other => (⟨404, true, some (.jsonError "Endpoint not found")⟩, false)

/-- The token-exchange `fetch` request: no timeout option. -/
def tokenRequest : OutboundCall :=
  ⟨"https://accounts.zoho.com/oauth/v2/token", none⟩

/-- The contact-creation `fetch` request: no timeout option. -/
def contactsCreateRequest : OutboundCall :=
  ⟨"https://invoice.zoho.com/api/v3/contacts", none⟩

/-- The contact-search `fetch` request: no timeout option. -/
def contactsSearchRequest (email : String) : OutboundCall :=
  ⟨"https://invoice.zoho.com/api/v3/contacts?email=" ++ email, none⟩

/-- The invoice-creation `fetch` request: no timeout option. -/
def invoicesCreateRequest : OutboundCall :=
  ⟨"https://invoice.zoho.com/api/v3/invoices", none⟩

/-- The invoice-detail `fetch` request: no timeout option. -/
def invoiceGetRequest (invoiceId : String) : OutboundCall :=
  ⟨"https://invoice.zoho.com/api/v3/invoices/" ++ invoiceId, none⟩

end SBZoho

namespace Purchase
/-!
Embedding of the pricing and order-creation logic of
`src/src/pages/ServicePurchase.tsx`.  The currency utilities
(`convertCurrency`, `getPreferredCurrency`) live outside the handler code
and are abstracted: conversion is an opaque function parameter, and the
currency domain is the three currencies the page distinguishes.
-/

/-- An add-on service offer (`id` and unit price, already in the user
currency). -/
structure AddOn where
  id : String
  price : ℚ

/-- Package prices of the displayed service, one per tier (the `|| 0`
defaults of the transformation are already applied). -/
structure PricingTiers where
  basic : ℚ
  standard : ℚ
  enterprise : ℚ

/-- The selected package tier. -/
inductive PackageType where
  | basic
  | standard
  | enterprise
deriving DecidableEq

/-- Embedding of `getCurrentPrice`: the tier price of the selected
package. -/
def getCurrentPrice (pricing : PricingTiers) (pkg : PackageType) : ℚ :=
  match pkg with
  | .basic => pricing.basic
  | .standard => pricing.standard
  | .enterprise => pricing.enterprise

/-- Embedding of `getAddOnPrice`: the price of the add-on with the given
id, or 0 when no such add-on exists. -/
def getAddOnPrice (addOns : List AddOn) (addOnId : String) : ℚ :=
  match addOns.find? (fun a => a.id == addOnId) with
  | some a => a.price
  | none => 0

/-- Embedding of `getTotalAddOnPrice`: the reduce over the selected
add-on ids. -/
def getTotalAddOnPrice (addOns : List AddOn) (selected : List String) : ℚ :=
  selected.foldl (fun total addOnId => total + getAddOnPrice addOns addOnId) 0

/-- Embedding of `getTotalPrice`: base price times quantity plus add-on
price times quantity. -/
def getTotalPrice (pricing : PricingTiers) (pkg : PackageType)
    (addOns : List AddOn) (selected : List String) (quantity : Nat) : ℚ :=
  getCurrentPrice pricing pkg * (quantity : ℚ) +
    getTotalAddOnPrice addOns selected * (quantity : ℚ)

/-- The currencies the purchase page distinguishes. -/
inductive Currency where
  | USD
  | INR
  | AUD
deriving DecidableEq

/-- The order row inserted into the `orders` table by `handlePurchase`. -/
structure OrderRow where
  client_id : String
  service_id : String
  package_type : PackageType
  amount_usd : ℚ
  amount_inr : ℚ
  amount_aud : ℚ
  currency : Currency
  status : String

/-- Embedding of the order construction in `handlePurchase`: `convert`
abstracts the external `convertCurrency` utility. -/
def handlePurchaseOrder (convert : ℚ → Currency → Currency → ℚ)
    (clientId serviceId : String) (pricing : PricingTiers) (pkg : PackageType)
    (addOns : List AddOn) (selected : List String) (quantity : Nat)
    (userCurrency : Currency) : OrderRow :=
  let totalPrice := getTotalPrice pricing pkg addOns selected quantity
  let usdPrice :=
    if userCurrency = Currency.USD then totalPrice
    else convert totalPrice userCurrency Currency.USD
  { client_id := clientId
    service_id := serviceId
    package_type := pkg
    amount_usd := usdPrice
    amount_inr :=
      if userCurrency = Currency.INR then totalPrice
      else convert usdPrice Currency.USD Currency.INR
    amount_aud :=
      if userCurrency = Currency.AUD then totalPrice
      else convert usdPrice Currency.USD Currency.AUD
    currency := userCurrency
    status := "pending" }

/-- The amount column of an order row corresponding to a currency. -/
def amountIn (row : OrderRow) (c : Currency) : ℚ :=
  match c with
  | .USD => row.amount_usd
  | .INR => row.amount_inr
  | .AUD => row.amount_aud

end Purchase

/-! Concrete instances used by witnesses and counterexamples. -/

/-- Concrete send function whose first attempt fails and whose second
succeeds. -/
def witnessSend : Nat → Except String Nat :=
  fun n => if n = 1 then .error "smtp 421" else .ok 7

/-- Concrete add-on list for the C8 witness. -/
def addOns0 : List Purchase.AddOn :=
  [⟨"ssl-certificate", 15⟩, ⟨"monitoring", 8⟩]

/-- Concrete tier prices for the C8 witness. -/
def pricing0 : Purchase.PricingTiers := ⟨10, 20, 30⟩

/-- Concrete e-mail environment for the C3 witness. -/
def env0 : EmailEnv := ⟨some "no-reply@mechinweb.com", some "app-password"⟩

/-- Concrete contact-form payload for the C3 witness. -/
def d0 : MailFn.ContactData := ⟨"Ada", "ada@example.com", "Hello", "Hi there"⟩

/-- Concrete world for the C3 witness: the customer send fails. -/
def w0 : MailFn.EmailWorld := ⟨.ok (), .error (.err "send failed"), .ok (), .ok ()⟩


/-- Concrete vendor contact. -/
def contact0 : Contact := ⟨"200000000001", "Jane Doe", "jane@example.com"⟩

/-- Concrete customer payload. -/
def customer0 : CustomerData := ⟨"Jane Doe", "jane@example.com", none, none⟩

/-- Concrete service item. -/
def item0 : ServiceItem := ⟨"Email Migration", "standard", 2, 10, 20⟩

/-- Concrete vendor invoice. -/
def invoice0 : VendorInvoice := ⟨"inv-77", "INV-1700000000000", 42, "draft", none⟩

/-- Concrete invoice request data. -/
def invoiceData0 : InvoiceData := ⟨"200000000001", [item0], "USD", none⟩

/-- Concrete successful token fetch response. -/
def tokenOk : SBZoho.FetchResp TokenData := ⟨true, 200, ⟨"token-abc"⟩, ""⟩

/-- Concrete failed contact-creation fetch response with status 500. -/
def createFailed500 : SBZoho.FetchResp SBZoho.ContactEnvelope :=
  ⟨false, 500, ⟨contact0⟩, "Internal Server Error"⟩

/-- Concrete contact-search fetch response finding one contact. -/
def findOk : SBZoho.FetchResp (List Contact) := ⟨true, 200, [contact0], ""⟩

/-- Concrete axios failure carrying status 400. -/
def e400 : HttpFailure :=
  ⟨some 400, none, none, none, "Request failed with status code 400"⟩

/-- Concrete axios failure carrying status 401. -/
def e401 : HttpFailure :=
  ⟨some 401, none, none, none, "Request failed with status code 401"⟩

/-- Concrete axios failure carrying status 400 and the vendor error code
invalid_grant. -/
def e400grant : HttpFailure :=
  ⟨some 400, some "invalid_grant", none, none, "Request failed with status code 400"⟩

/-- Zoho environment with the organization id missing and the other three
variables set. -/
def envNoOrg : ZohoEnv :=
  ⟨some "client-id", some "client-secret", some "refresh-token", none⟩

/-- Zoho environment with nothing configured. -/
def envEmptyZoho : ZohoEnv := ⟨none, none, none, none⟩

/-- Zoho environment with all four variables set. -/
def envFullZoho : ZohoEnv :=
  ⟨some "client-id", some "client-secret", some "refresh-token", some "org-1"⟩

/-- Concrete world for the zohoIntegration handler whose token exchange
fails with status 401. -/
def ziWorldTokenFail : NetlifyZoho.ZIWorld :=
  { tokenOutcome := .error e401
    customerData := customer0
    invoiceData := invoiceData0
    nowMs := 1700000000000
    postContact := .ok contact0
    searchContacts := .ok [contact0]
    postInvoice := .ok invoice0
    getInvoice := .ok invoice0 }

/-- Concrete createPayment world with every outbound call succeeding. -/
def cpWorld0 : PayFn.CPWorld :=
  { tokenOutcome := .ok ⟨"token-abc"⟩
    customerData := customer0
    invoiceData := invoiceData0
    nowMs := 1700000000000
    postContact := .ok contact0
    searchContacts := .ok [contact0]
    postInvoice := .ok invoice0 }

/-- Concrete supabase world with every fetch succeeding. -/
def sbWorld0 : SBZoho.SBWorld :=
  { customerData := customer0
    invoiceData := invoiceData0
    nowMs := 1700000000000
    tokenResp := tokenOk
    createContactResp := ⟨true, 200, ⟨contact0⟩, ""⟩
    findTokenResp := tokenOk
    findContactsResp := findOk
    invTokenResp := tokenOk
    createInvoiceResp := ⟨true, 200, invoice0, ""⟩
    getTokenResp := tokenOk
    getInvoiceResp := ⟨true, 200, invoice0, ""⟩ }

/-! Theorems settling the claims. -/

/-- C2: with the default `maxRetries = 2` used by every call site,
`sendEmailWithRetry` makes at most two send attempts; a failure on the
non-final attempt sleeps `2 ^ attempt` seconds (2000 ms after attempt 1)
before retrying; the result of the first successful attempt is returned;
and the underlying error of the final attempt is thrown exactly when both
attempts fail. -/
theorem sendEmailWithRetry_policy {R E : Type} (send : Nat → Except E R) :
    (MailFn.sendEmailWithRetry send 2).attempts ≤ 2 ∧
    (∀ r, send 1 = .ok r →
      MailFn.sendEmailWithRetry send 2 = ⟨some (.ok r), 1, []⟩) ∧
    (∀ e r, send 1 = .error e → send 2 = .ok r →
      MailFn.sendEmailWithRetry send 2 = ⟨some (.ok r), 2, [2000]⟩) ∧
    (∀ e1 e2, send 1 = .error e1 → send 2 = .error e2 →
      MailFn.sendEmailWithRetry send 2 = ⟨some (.error e2), 2, [2000]⟩) := by
  refine ⟨?_, ?_, ?_, ?_⟩
  · cases h1 : send 1 with
    | ok r => simp [MailFn.sendEmailWithRetry, MailFn.retryLoop, h1]
    | error e =>
      cases h2 : send 2 with
      | ok r => simp [MailFn.sendEmailWithRetry, MailFn.retryLoop, h1, h2]
      | error e2 => simp [MailFn.sendEmailWithRetry, MailFn.retryLoop, h1, h2]
  · intro r h1
    simp [MailFn.sendEmailWithRetry, MailFn.retryLoop, h1]
  · intro e r h1 h2
    simp [MailFn.sendEmailWithRetry, MailFn.retryLoop, h1, h2]
  · intro e1 e2 h1 h2
    simp [MailFn.sendEmailWithRetry, MailFn.retryLoop, h1, h2]


/-- C2 witness: the policy evaluated at a concrete send function. -/
theorem sendEmailWithRetry_policy_witness :
    MailFn.sendEmailWithRetry witnessSend 2 = ⟨some (.ok 7), 2, [2000]⟩ :=
  (sendEmailWithRetry_policy witnessSend).2.2.1 "smtp 421" 7 rfl rfl

/-- Folding price additions from an arbitrary accumulator equals the
accumulator plus the sum of the mapped prices. -/
theorem purchase_foldl_add (addOns : List Purchase.AddOn) (selected : List String) (a : ℚ) :
    selected.foldl (fun total addOnId => total + Purchase.getAddOnPrice addOns addOnId) a =
      a + (selected.map (Purchase.getAddOnPrice addOns)).sum := by
  induction selected generalizing a with
  | nil => simp
  | cons x xs ih => simp [List.foldl_cons, List.map_cons, List.sum_cons, ih]; ring

/-- C8: the purchase-page order total is (package unit price plus the sum
of the selected add-on prices) times the quantity — add-on charges scale
with the quantity — and an add-on id absent from the add-on list
contributes 0 to the total. -/
theorem getTotalPrice_spec (pricing : Purchase.PricingTiers) (pkg : Purchase.PackageType)
    (addOns : List Purchase.AddOn) (selected : List String) (quantity : Nat) :
    Purchase.getTotalPrice pricing pkg addOns selected quantity =
      (Purchase.getCurrentPrice pricing pkg +
        (selected.map (Purchase.getAddOnPrice addOns)).sum) * (quantity : ℚ) ∧
    (∀ addOnId, addOns.find? (fun a => a.id == addOnId) = none →
      Purchase.getAddOnPrice addOns addOnId = 0 ∧
      Purchase.getTotalPrice pricing pkg addOns (selected ++ [addOnId]) quantity =
        Purchase.getTotalPrice pricing pkg addOns selected quantity) := by
  constructor
  · unfold Purchase.getTotalPrice Purchase.getTotalAddOnPrice
    rw [purchase_foldl_add]
    ring
  · intro addOnId hfind
    have hz : Purchase.getAddOnPrice addOns addOnId = 0 := by
      unfold Purchase.getAddOnPrice
      rw [hfind]
    refine ⟨hz, ?_⟩
    unfold Purchase.getTotalPrice Purchase.getTotalAddOnPrice
    rw [purchase_foldl_add, purchase_foldl_add]
    simp [hz]



/-- C8 witness: an id that is not an offered add-on contributes nothing to
a concrete order total. -/
theorem getTotalPrice_spec_witness :
    Purchase.getAddOnPrice addOns0 "backup-service" = 0 ∧
    Purchase.getTotalPrice pricing0 Purchase.PackageType.basic addOns0
        (["ssl-certificate"] ++ ["backup-service"]) 3 =
      Purchase.getTotalPrice pricing0 Purchase.PackageType.basic addOns0
        ["ssl-certificate"] 3 :=
  (getTotalPrice_spec pricing0 Purchase.PackageType.basic addOns0
    ["ssl-certificate"] 3).2 "backup-service" rfl

/-- C10: every order row built by `handlePurchase` carries status
`pending`, and the amount column of the user currency equals the
displayed order total, for any conversion function and any input. -/
theorem handlePurchaseOrder_invariant (convert : ℚ → Purchase.Currency → Purchase.Currency → ℚ)
    (clientId serviceId : String) (pricing : Purchase.PricingTiers)
    (pkg : Purchase.PackageType) (addOns : List Purchase.AddOn)
    (selected : List String) (quantity : Nat) (userCurrency : Purchase.Currency) :
    (Purchase.handlePurchaseOrder convert clientId serviceId pricing pkg addOns
        selected quantity userCurrency).status = "pending" ∧
    Purchase.amountIn
        (Purchase.handlePurchaseOrder convert clientId serviceId pricing pkg addOns
          selected quantity userCurrency) userCurrency =
      Purchase.getTotalPrice pricing pkg addOns selected quantity := by
  cases userCurrency <;>
    simp [Purchase.handlePurchaseOrder, Purchase.amountIn]

/-- C3: for contact-form and quote-request submissions that reach the send
stage, the customer confirmation and the business notification are awaited
jointly: the handler answers 200 with a success body exactly when both
sends succeed, and when either send fails it answers 500 with a body
reporting the failure message of a failed send.  This holds in both e-mail
functions. -/
theorem emailFanOut_joint :
    (∀ (env : EmailEnv) (d : MailFn.ContactData) (w : MailFn.EmailWorld),
      jsTruthy env.emailUser = true → jsTruthy env.emailPassword = true →
      w.verifyOutcome = .ok () →
      (d.name == "") = false → (d.email == "") = false →
      (d.subject == "") = false → (d.message == "") = false →
      (((MailFn.sendEmailHandler env HttpMethod.POST (some (MailFn.EmailType.contact_form, d)) w).1 =
          ⟨200, true, .jsonSuccess⟩)
        ↔ w.customerSend = .ok () ∧ w.businessSend = .ok ()) ∧
      (∀ e, w.customerSend = .error e →
        (MailFn.sendEmailHandler env HttpMethod.POST (some (MailFn.EmailType.contact_form, d)) w).1 =
          ⟨500, true, .jsonError e.message⟩) ∧
      (∀ e, w.customerSend = .ok () → w.businessSend = .error e →
        (MailFn.sendEmailHandler env HttpMethod.POST (some (MailFn.EmailType.contact_form, d)) w).1 =
          ⟨500, true, .jsonError e.message⟩)) ∧
    (∀ (env : EmailEnv) (d : MailFn.ContactData) (w : MailFn.EmailWorld),
      jsTruthy env.emailUser = true → jsTruthy env.emailPassword = true →
      w.verifyOutcome = .ok () →
      (((MailFn.sendEmailHandler env HttpMethod.POST (some (MailFn.EmailType.quote_request, d)) w).1 =
          ⟨200, true, .jsonSuccess⟩)
        ↔ w.customerSend = .ok () ∧ w.businessSend = .ok ()) ∧
      (∀ e, w.customerSend = .error e →
        (MailFn.sendEmailHandler env HttpMethod.POST (some (MailFn.EmailType.quote_request, d)) w).1 =
          ⟨500, true, .jsonError e.message⟩) ∧
      (∀ e, w.customerSend = .ok () → w.businessSend = .error e →
        (MailFn.sendEmailHandler env HttpMethod.POST (some (MailFn.EmailType.quote_request, d)) w).1 =
          ⟨500, true, .jsonError e.message⟩)) ∧
    (∀ (env : EmailEnv) (d : MailFn.ContactData) (w : MailFn.EmailWorld),
      jsTruthy env.emailUser = true → jsTruthy env.emailPassword = true →
      (((MailPlain.sendEmailHandler env HttpMethod.POST (.ok (MailFn.EmailType.contact_form, d)) (.ok ()) w).1 =
          ⟨200, true, .jsonSuccess⟩)
        ↔ w.customerSend = .ok () ∧ w.businessSend = .ok ()) ∧
      (∀ e, w.customerSend = .error e →
        (MailPlain.sendEmailHandler env HttpMethod.POST (.ok (MailFn.EmailType.contact_form, d)) (.ok ()) w).1 =
          ⟨500, true, .jsonError e.message⟩) ∧
      (∀ e, w.customerSend = .ok () → w.businessSend = .error e →
        (MailPlain.sendEmailHandler env HttpMethod.POST (.ok (MailFn.EmailType.contact_form, d)) (.ok ()) w).1 =
          ⟨500, true, .jsonError e.message⟩)) ∧
    (∀ (env : EmailEnv) (d : MailFn.ContactData) (w : MailFn.EmailWorld),
      jsTruthy env.emailUser = true → jsTruthy env.emailPassword = true →
      (((MailPlain.sendEmailHandler env HttpMethod.POST (.ok (MailFn.EmailType.quote_request, d)) (.ok ()) w).1 =
          ⟨200, true, .jsonSuccess⟩)
        ↔ w.customerSend = .ok () ∧ w.businessSend = .ok ())) := by
  refine ⟨?_, ?_, ?_, ?_⟩
  · intro env d w hu hp hv hn he hs hm
    refine ⟨?_, ?_, ?_⟩
    · cases hc : w.customerSend with
      | ok u =>
        cases u
        cases hb : w.businessSend with
        | ok u2 =>
          cases u2
          simp [MailFn.sendEmailHandler, MailFn.handleContactForm, promiseAll2, Except.map,
            hu, hp, hv, hn, he, hs, hm, hc, hb]
        | error e =>
          simp [MailFn.sendEmailHandler, MailFn.handleContactForm, promiseAll2, Except.map,
            hu, hp, hv, hn, he, hs, hm, hc, hb]
      | error e =>
        simp [MailFn.sendEmailHandler, MailFn.handleContactForm, promiseAll2, Except.map,
          hu, hp, hv, hn, he, hs, hm, hc]
    · intro e hc
      simp [MailFn.sendEmailHandler, MailFn.handleContactForm, promiseAll2, Except.map,
        hu, hp, hv, hn, he, hs, hm, hc]
    · intro e hc hb
      simp [MailFn.sendEmailHandler, MailFn.handleContactForm, promiseAll2, Except.map,
        hu, hp, hv, hn, he, hs, hm, hc, hb]
  · intro env d w hu hp hv
    refine ⟨?_, ?_, ?_⟩
    · cases hc : w.customerSend with
      | ok u =>
        cases u
        cases hb : w.businessSend with
        | ok u2 =>
          cases u2
          simp [MailFn.sendEmailHandler, MailFn.handleQuoteRequest, promiseAll2, Except.map,
            hu, hp, hv, hc, hb]
        | error e =>
          simp [MailFn.sendEmailHandler, MailFn.handleQuoteRequest, promiseAll2, Except.map,
            hu, hp, hv, hc, hb]
      | error e =>
        simp [MailFn.sendEmailHandler, MailFn.handleQuoteRequest, promiseAll2, Except.map,
          hu, hp, hv, hc]
    · intro e hc
      simp [MailFn.sendEmailHandler, MailFn.handleQuoteRequest, promiseAll2, Except.map,
        hu, hp, hv, hc]
    · intro e hc hb
      simp [MailFn.sendEmailHandler, MailFn.handleQuoteRequest, promiseAll2, Except.map,
        hu, hp, hv, hc, hb]
  · intro env d w hu hp
    refine ⟨?_, ?_, ?_⟩
    · cases hc : w.customerSend with
      | ok u =>
        cases u
        cases hb : w.businessSend with
        | ok u2 =>
          cases u2
          simp [MailPlain.sendEmailHandler, MailPlain.handleContactForm, promiseAll2, Except.map,
            hu, hp, hc, hb]
        | error e =>
          simp [MailPlain.sendEmailHandler, MailPlain.handleContactForm, promiseAll2, Except.map,
            hu, hp, hc, hb]
      | error e =>
        simp [MailPlain.sendEmailHandler, MailPlain.handleContactForm, promiseAll2, Except.map,
          hu, hp, hc]
    · intro e hc
      simp [MailPlain.sendEmailHandler, MailPlain.handleContactForm, promiseAll2, Except.map,
        hu, hp, hc]
    · intro e hc hb
      simp [MailPlain.sendEmailHandler, MailPlain.handleContactForm, promiseAll2, Except.map,
        hu, hp, hc, hb]
  · intro env d w hu hp
    cases hc : w.customerSend with
    | ok u =>
      cases u
      cases hb : w.businessSend with
      | ok u2 =>
        cases u2
        simp [MailPlain.sendEmailHandler, MailPlain.handleQuoteRequest, promiseAll2, Except.map,
          hu, hp, hc, hb]
      | error e =>
        simp [MailPlain.sendEmailHandler, MailPlain.handleQuoteRequest, promiseAll2, Except.map,
          hu, hp, hc, hb]
    | error e =>
      simp [MailPlain.sendEmailHandler, MailPlain.handleQuoteRequest, promiseAll2, Except.map,
        hu, hp, hc]




/-- C3 witness: a concrete contact-form submission whose customer send
fails produces the 500 response carrying that failure message. -/
theorem emailFanOut_joint_witness :
    (MailFn.sendEmailHandler env0 HttpMethod.POST
        (some (MailFn.EmailType.contact_form, d0)) w0).1 =
      ⟨500, true, .jsonError "send failed"⟩ :=
  (emailFanOut_joint.1 env0 d0 w0 rfl rfl rfl rfl rfl rfl rfl).2.1
    (.err "send failed") rfl

/-- C9 (amended): every serverless handler except the nodemailer debug
handler answers an OPTIONS request with status 200, an empty body and CORS
headers, making no outbound call, and the response is the same whatever
the environment holds — no variable validation, body parsing or outbound
call takes place.  (The nodemailer debug handler of `part_001` ignores the
HTTP method entirely; see the counterexample.) -/
theorem corsPreflight_amended :
    (∀ env parsed w,
      MailFn.sendEmailHandler env HttpMethod.OPTIONS parsed w = (⟨200, true, .empty⟩, false)) ∧
    (∀ env parsed createOutcome w,
      MailPlain.sendEmailHandler env HttpMethod.OPTIONS parsed createOutcome w =
        (⟨200, true, .empty⟩, false)) ∧
    (∀ env verifyOutcome sendOutcome,
      MailTest.testEmailHandler env HttpMethod.OPTIONS verifyOutcome sendOutcome =
        (⟨200, true, .empty⟩, false)) ∧
    (∀ env route w,
      NetlifyZoho.handler env HttpMethod.OPTIONS route w = (⟨200, true, .empty⟩, false)) ∧
    (∀ env w, PayFn.handler env HttpMethod.OPTIONS w = (⟨200, true, .empty⟩, false)) ∧
    (∀ env w, ZohoTest.handler env HttpMethod.OPTIONS w = (⟨200, true, .empty⟩, false)) ∧
    (∀ env route w,
      SBZoho.serve env HttpMethod.OPTIONS route w = (⟨200, true, none⟩, false)) := by
  refine ⟨?_, ?_, ?_, ?_, ?_, ?_, ?_⟩ <;> intros <;> rfl

/-- C9 counterexample: the nodemailer debug handler of `part_001` has no
OPTIONS branch — an OPTIONS request with no credentials configured is
answered 500 with a credentials-validation error body (no CORS header,
non-empty body), so the claim as stated over every serverless handler
fails. -/
theorem corsPreflight_counterexample :
    MailDebug.debugEmailHandler ⟨none, none⟩ HttpMethod.OPTIONS (.ok ()) =
      (⟨500, false, .jsonError "Email credentials not configured."⟩, false) ∧
    (MailDebug.debugEmailHandler ⟨none, none⟩ HttpMethod.OPTIONS (.ok ())).1.statusCode ≠ 200 ∧
    (MailDebug.debugEmailHandler ⟨none, none⟩ HttpMethod.OPTIONS (.ok ())).1.body ≠ .empty := by
  refine ⟨rfl, by decide, by decide⟩

/-- C1 (amended): in the two Netlify implementations a successful vendor
POST returns the created contact, a 400 failure returns the result of the
fallback search by the same email (the first contact found), and any other
failure propagates with no search; the Supabase implementation also
returns the created contact on success and the first contact found by the
fallback search, but performs that fallback on every failed creation call,
whatever the status, instead of propagating non-400 failures. -/
theorem findOrCreateCustomer_amended :
    (∀ (d : CustomerData) (c : Contact) (search : Except HttpFailure (List Contact)),
      NetlifyZoho.createZohoCustomer d (.ok c) search = (.ok c.contact_id, none)) ∧
    (∀ (d : CustomerData) (e : HttpFailure) (search : Except HttpFailure (List Contact)),
      e.status = some 400 →
      NetlifyZoho.createZohoCustomer d (.error e) search =
        (NetlifyZoho.findZohoCustomer d.email search, some d.email)) ∧
    (∀ (d : CustomerData) (e : HttpFailure) (search : Except HttpFailure (List Contact)),
      e.status ≠ some 400 →
      NetlifyZoho.createZohoCustomer d (.error e) search = (.error (.axios e), none)) ∧
    (∀ (email : String) (c : Contact) (rest : List Contact),
      NetlifyZoho.findZohoCustomer email (.ok (c :: rest)) = .ok c.contact_id) ∧
    (∀ (d : CustomerData) (c : Contact) (search : Except HttpFailure (List Contact)),
      PayFn.createZohoCustomer d (.ok c) search = (.ok c.contact_id, none)) ∧
    (∀ (d : CustomerData) (e : HttpFailure) (search : Except HttpFailure (List Contact)),
      e.status = some 400 →
      PayFn.createZohoCustomer d (.error e) search =
        (PayFn.findZohoCustomer d.email search, some d.email)) ∧
    (∀ (d : CustomerData) (e : HttpFailure) (search : Except HttpFailure (List Contact)),
      e.status ≠ some 400 →
      PayFn.createZohoCustomer d (.error e) search = (.error (.axios e), none)) ∧
    (∀ (email : String) (c : Contact) (rest : List Contact),
      PayFn.findZohoCustomer email (.ok (c :: rest)) = .ok c.contact_id) ∧
    (∀ (d : CustomerData) (tokenResp : SBZoho.FetchResp TokenData)
        (createResp : SBZoho.FetchResp SBZoho.ContactEnvelope)
        (findTokenResp : SBZoho.FetchResp TokenData)
        (findResp : SBZoho.FetchResp (List Contact)),
      tokenResp.ok = true → createResp.ok = true →
      SBZoho.createZohoCustomer d tokenResp createResp findTokenResp findResp =
        (.ok createResp.body.contact, none)) ∧
    (∀ (d : CustomerData) (tokenResp : SBZoho.FetchResp TokenData)
        (createResp : SBZoho.FetchResp SBZoho.ContactEnvelope)
        (findTokenResp : SBZoho.FetchResp TokenData)
        (findResp : SBZoho.FetchResp (List Contact)),
      tokenResp.ok = true → createResp.ok = false →
      SBZoho.createZohoCustomer d tokenResp createResp findTokenResp findResp =
        (SBZoho.findZohoCustomer d.email findTokenResp findResp, some d.email)) ∧
    (∀ (email : String) (c : Contact) (rest : List Contact)
        (tokenResp : SBZoho.FetchResp TokenData)
        (findResp : SBZoho.FetchResp (List Contact)),
      tokenResp.ok = true → findResp.ok = true → findResp.body = c :: rest →
      SBZoho.findZohoCustomer email tokenResp findResp = .ok c) := by
  refine ⟨?_, ?_, ?_, ?_, ?_, ?_, ?_, ?_, ?_, ?_, ?_⟩
  · intro d c search; rfl
  · intro d e search h
    simp [NetlifyZoho.createZohoCustomer, h]
  · intro d e search h
    simp [NetlifyZoho.createZohoCustomer, h]
  · intro email c rest; rfl
  · intro d c search; rfl
  · intro d e search h
    simp [PayFn.createZohoCustomer, h]
  · intro d e search h
    simp [PayFn.createZohoCustomer, h]
  · intro email c rest; rfl
  · intro d tokenResp createResp findTokenResp findResp ht hc
    simp [SBZoho.createZohoCustomer, SBZoho.getZohoAccessToken, ht, hc]
  · intro d tokenResp createResp findTokenResp findResp ht hc
    simp [SBZoho.createZohoCustomer, SBZoho.getZohoAccessToken, ht, hc]
  · intro email c rest tokenResp findResp ht hf hbody
    simp [SBZoho.findZohoCustomer, SBZoho.getZohoAccessToken, ht, hf, hbody]

/-- C1 witness: a concrete 400 creation failure in the Netlify handler
falls back to the search by the same email. -/
theorem findOrCreateCustomer_witness :
    NetlifyZoho.createZohoCustomer customer0 (.error e400) (.ok [contact0]) =
      (NetlifyZoho.findZohoCustomer customer0.email (.ok [contact0]),
        some customer0.email) :=
  findOrCreateCustomer_amended.2.1 customer0 e400 (.ok [contact0]) rfl

/-- C1 counterexample: a creation failure with status 500 — not a 400
conflict — in the Supabase implementation does not propagate: the fallback
search runs and its first contact is returned, contradicting the claim
that every non-400 creation failure propagates without a search. -/
theorem findOrCreateCustomer_counterexample :
    createFailed500.status = 500 ∧
    SBZoho.createZohoCustomer customer0 tokenOk createFailed500 tokenOk findOk =
      (.ok contact0, some "jane@example.com") :=
  ⟨rfl, rfl⟩

/-- C4 (amended): the first zohoIntegration handler classifies a failed
token exchange by HTTP status — 400 to an invalid-credentials message,
401 to a refresh-token-expired message, anything else to a generic
authentication-failed message carrying the underlying error text — while
the second handler document subdivides status 400 by the vendor error code
(invalid_grant to a refresh-token-expired message, invalid_client to an
invalid-client-credentials message, otherwise a generic token error) and
maps status 401 to a generic check-your-credentials message; the handler
surfaces every token failure as HTTP 500 with a success-false JSON body
carrying the classified message. -/
theorem tokenErrorClassification_amended :
    (∀ e : HttpFailure,
      (e.status = some 400 →
        NetlifyZoho.tokenErrorMessage e =
          "Invalid Zoho credentials. Please check ZOHO_CLIENT_ID, ZOHO_CLIENT_SECRET, and ZOHO_REFRESH_TOKEN.") ∧
      (e.status = some 401 →
        NetlifyZoho.tokenErrorMessage e =
          "Zoho refresh token expired. Please regenerate the refresh token.") ∧
      (e.status ≠ some 400 → e.status ≠ some 401 →
        NetlifyZoho.tokenErrorMessage e = "Zoho authentication failed: " ++ e.message)) ∧
    (∀ e : HttpFailure,
      (e.status = some 400 → e.dataError = some "invalid_grant" →
        NetlifyZohoB.tokenErrorMessage e =
          "Zoho refresh token has expired. Please regenerate the refresh token in Zoho Developer Console.") ∧
      (e.status = some 400 → e.dataError = some "invalid_client" →
        NetlifyZohoB.tokenErrorMessage e =
          "Invalid Zoho client credentials. Please check ZOHO_CLIENT_ID and ZOHO_CLIENT_SECRET.") ∧
      (e.status = some 401 →
        NetlifyZohoB.tokenErrorMessage e =
          "Zoho authentication failed. Please check your credentials.") ∧
      (e.status ≠ some 400 → e.status ≠ some 401 →
        NetlifyZohoB.tokenErrorMessage e = "Zoho token request failed: " ++ e.message)) ∧
    (∀ (env : ZohoEnv) (method : HttpMethod) (route : NetlifyZoho.ZIRoute)
        (w : NetlifyZoho.ZIWorld) (e : HttpFailure),
      method ≠ HttpMethod.OPTIONS → missingZohoVars env = [] →
      w.tokenOutcome = .error e →
      NetlifyZoho.handler env method route w =
        (⟨500, true, .jsonError (NetlifyZoho.tokenErrorMessage e)⟩, true)) := by
  refine ⟨?_, ?_, ?_⟩
  · intro e
    refine ⟨?_, ?_, ?_⟩
    · intro h; simp [NetlifyZoho.tokenErrorMessage, h]
    · intro h; simp [NetlifyZoho.tokenErrorMessage, h]
    · intro h4 h1; simp [NetlifyZoho.tokenErrorMessage, h4, h1]
  · intro e
    refine ⟨?_, ?_, ?_, ?_⟩
    · intro h hg; simp [NetlifyZohoB.tokenErrorMessage, h, hg]
    · intro h hg; simp [NetlifyZohoB.tokenErrorMessage, h, hg]
    · intro h; simp [NetlifyZohoB.tokenErrorMessage, h]
    · intro h4 h1; simp [NetlifyZohoB.tokenErrorMessage, h4, h1]
  · intro env method route w e hm hmv htok
    have hv : validateZohoConfig env = .ok () := by
      simp [validateZohoConfig, hmv]
    simp [NetlifyZoho.handler, hm, hv, htok, NetlifyZoho.getZohoAccessToken,
      JsError.message]

/-- C4 witness: with a configured environment and a token exchange failing
with status 401, the handler answers 500 with the classified message. -/
theorem tokenErrorClassification_witness :
    NetlifyZoho.handler envFullZoho HttpMethod.POST NetlifyZoho.ZIRoute.customers
        ziWorldTokenFail =
      (⟨500, true, .jsonError (NetlifyZoho.tokenErrorMessage e401)⟩, true) :=
  tokenErrorClassification_amended.2.2 envFullZoho HttpMethod.POST
    NetlifyZoho.ZIRoute.customers ziWorldTokenFail e401 (by decide) (by decide) rfl

/-- C4 counterexample: the two cited catch blocks disagree on the same
failure, so no single status-determined classification holds for every
failed exchange: at status 401 the first variant throws the
refresh-token-expired message while the second throws a generic
check-your-credentials message, and at status 400 with vendor code
invalid_grant the second variant throws a refresh-token-expired message,
not an invalid-credentials one. -/
theorem tokenErrorClassification_counterexample :
    NetlifyZoho.tokenErrorMessage e401 =
      "Zoho refresh token expired. Please regenerate the refresh token." ∧
    NetlifyZohoB.tokenErrorMessage e401 =
      "Zoho authentication failed. Please check your credentials." ∧
    NetlifyZoho.tokenErrorMessage e401 ≠ NetlifyZohoB.tokenErrorMessage e401 ∧
    NetlifyZohoB.tokenErrorMessage e400grant =
      "Zoho refresh token has expired. Please regenerate the refresh token in Zoho Developer Console." ∧
    NetlifyZohoB.tokenErrorMessage e400grant ≠
      "Invalid Zoho credentials. Please check ZOHO_CLIENT_ID, ZOHO_CLIENT_SECRET, and ZOHO_REFRESH_TOKEN." := by
  refine ⟨rfl, rfl, by decide, rfl, by decide⟩

/-- C5 (amended): the Netlify Zoho handlers validate all four variables
before any outbound call — the missing-variable list is an in-order
sublist of the fixed name order with a name present exactly when its
variable is falsy, and a non-OPTIONS request (a POST for the payment
handler, which rejects other methods with 405 first) with any variable
missing is answered 500 with the message listing exactly the missing
names, no outbound call being made; the Supabase handler instead requires
only the client id, client secret and refresh token — answering a fixed
three-name message when any of those is missing — and proceeds to make
outbound calls when they are present even though the organization id is
absent. -/
theorem envValidation_amended :
    (∀ env : ZohoEnv,
      List.Sublist (missingZohoVars env) zohoVarNames ∧
      ("ZOHO_CLIENT_ID" ∈ missingZohoVars env ↔ jsTruthy env.clientId = false) ∧
      ("ZOHO_CLIENT_SECRET" ∈ missingZohoVars env ↔ jsTruthy env.clientSecret = false) ∧
      ("ZOHO_REFRESH_TOKEN" ∈ missingZohoVars env ↔ jsTruthy env.refreshToken = false) ∧
      ("ZOHO_ORGANIZATION_ID" ∈ missingZohoVars env ↔ jsTruthy env.organizationId = false)) ∧
    (∀ (env : ZohoEnv) (method : HttpMethod) (route : NetlifyZoho.ZIRoute)
        (w : NetlifyZoho.ZIWorld),
      method ≠ HttpMethod.OPTIONS → missingZohoVars env ≠ [] →
      NetlifyZoho.handler env method route w =
        (⟨500, true, .jsonError ("Missing Zoho configuration: " ++
          String.intercalate ", " (missingZohoVars env))⟩, false)) ∧
    (∀ (env : ZohoEnv) (w : PayFn.CPWorld),
      missingZohoVars env ≠ [] →
      PayFn.handler env HttpMethod.POST w =
        (⟨500, true, .jsonError ("Missing Zoho configuration: " ++
          String.intercalate ", " (missingZohoVars env))⟩, false)) ∧
    (∀ (env : ZohoEnv) (method : HttpMethod) (w : ZohoTest.TestWorld),
      method ≠ HttpMethod.OPTIONS → missingZohoVars env ≠ [] →
      ZohoTest.handler env method w =
        (⟨500, true, .jsonError ("Missing Zoho configuration: " ++
          String.intercalate ", " (missingZohoVars env))⟩, false)) ∧
    (∀ (env : ZohoEnv) (method : HttpMethod) (route : SBZoho.SBRoute)
        (w : SBZoho.SBWorld),
      method ≠ HttpMethod.OPTIONS →
      (jsTruthy env.clientId && jsTruthy env.clientSecret && jsTruthy env.refreshToken) = false →
      SBZoho.serve env method route w =
        (⟨500, true, some (.jsonError "Zoho credentials not configured. Please check ZOHO_CLIENT_ID, ZOHO_CLIENT_SECRET, and ZOHO_REFRESH_TOKEN environment variables.")⟩, false)) ∧
    (∀ w : SBZoho.SBWorld,
      w.tokenResp.ok = true →
      SBZoho.serve envNoOrg HttpMethod.POST SBZoho.SBRoute.token w =
        (⟨200, true, some .jsonSuccess⟩, true)) := by
  refine ⟨?_, ?_, ?_, ?_, ?_, ?_⟩
  · intro env
    cases h1 : jsTruthy env.clientId <;> cases h2 : jsTruthy env.clientSecret <;>
      cases h3 : jsTruthy env.refreshToken <;> cases h4 : jsTruthy env.organizationId <;>
      simp [missingZohoVars, zohoVarNames, h1, h2, h3, h4]
  · intro env method route w hm hne
    have hv : validateZohoConfig env =
        .error ("Missing Zoho configuration: " ++
          String.intercalate ", " (missingZohoVars env)) := by
      have hpos : 0 < (missingZohoVars env).length := List.length_pos.mpr hne
      simp [validateZohoConfig, hpos]
    simp [NetlifyZoho.handler, hm, hv]
  · intro env w hne
    have hv : validateZohoConfig env =
        .error ("Missing Zoho configuration: " ++
          String.intercalate ", " (missingZohoVars env)) := by
      have hpos : 0 < (missingZohoVars env).length := List.length_pos.mpr hne
      simp [validateZohoConfig, hpos]
    simp [PayFn.handler, hv]
  · intro env method w hm hne
    have hpos : 0 < (missingZohoVars env).length := List.length_pos.mpr hne
    simp [ZohoTest.handler, hm, hpos]
  · intro env method route w hm hcred
    simp [SBZoho.serve, hm, hcred]
  · intro w htok
    simp [SBZoho.serve, SBZoho.getZohoAccessToken, htok, envNoOrg, jsTruthy]

/-- C5 witness: with an empty environment, the zohoIntegration handler
answers 500 listing the four missing names and makes no outbound call. -/
theorem envValidation_witness :
    NetlifyZoho.handler envEmptyZoho HttpMethod.POST NetlifyZoho.ZIRoute.customers
        ziWorldTokenFail =
      (⟨500, true, .jsonError ("Missing Zoho configuration: " ++
        String.intercalate ", " (missingZohoVars envEmptyZoho))⟩, false) :=
  envValidation_amended.2.1 envEmptyZoho HttpMethod.POST NetlifyZoho.ZIRoute.customers
    ziWorldTokenFail (by decide) (by decide)

/-- C5 counterexample: with the organization id missing but the other
three variables set, the Supabase Zoho handler does not answer 500 and
does make an outbound call — the token route succeeds — and the payment
handler answers a GET with 405, not with the missing-variable 500; so the
claim as stated over every non-OPTIONS request to every Zoho handler
fails. -/
theorem envValidation_counterexample :
    jsTruthy envNoOrg.organizationId = false ∧
    SBZoho.serve envNoOrg HttpMethod.POST SBZoho.SBRoute.token sbWorld0 =
      (⟨200, true, some .jsonSuccess⟩, true) ∧
    PayFn.handler envEmptyZoho HttpMethod.GET cpWorld0 =
      (⟨405, true, .jsonError "Method not allowed"⟩, false) :=
  ⟨rfl, rfl, rfl⟩

/-- Adding thirty days of milliseconds moves the epoch day forward by
exactly thirty. -/
theorem epochDay_add_thirty (nowMs : Nat) :
    epochDay (nowMs + 30 * 24 * 60 * 60 * 1000) = epochDay nowMs + 30 := by
  unfold epochDay
  have h : (30 : Nat) * 24 * 60 * 60 * 1000 = 30 * 86400000 := by norm_num
  rw [h, Nat.add_mul_div_right _ _ (by norm_num : (0 : Nat) < 86400000)]

/-- C6 (amended): each implementation builds one line item per service
item carrying the service name, a description naming the package tier,
rate equal to the unit price, the quantity and the total price as the item
total; the due date is exactly thirty days after the invoice date; and the
returned summary carries the id, number, payment URL derived from the
invoice id, total and status from the vendor response — with the
zohoIntegration variant additionally carrying the customer id passed to
the call. -/
theorem invoiceReshaping_amended :
    (∀ item : ServiceItem,
      (NetlifyZoho.mkLineItem item).name = item.serviceName ∧
      (NetlifyZoho.mkLineItem item).rate = item.unitPrice ∧
      (NetlifyZoho.mkLineItem item).quantity = item.quantity ∧
      (NetlifyZoho.mkLineItem item).item_total = item.totalPrice ∧
      (∃ pre post, (NetlifyZoho.mkLineItem item).description =
        pre ++ item.packageType ++ post)) ∧
    (∀ item : ServiceItem,
      (PayFn.mkLineItem item).name = item.serviceName ∧
      (PayFn.mkLineItem item).rate = item.unitPrice ∧
      (PayFn.mkLineItem item).quantity = item.quantity ∧
      (PayFn.mkLineItem item).item_total = item.totalPrice ∧
      (∃ pre post, (PayFn.mkLineItem item).description =
        pre ++ item.packageType ++ post)) ∧
    (∀ item : ServiceItem,
      (SBZoho.mkLineItem item).name = item.serviceName ∧
      (SBZoho.mkLineItem item).rate = item.unitPrice ∧
      (SBZoho.mkLineItem item).quantity = item.quantity ∧
      (SBZoho.mkLineItem item).item_total = item.totalPrice ∧
      (∃ pre post, (SBZoho.mkLineItem item).description =
        pre ++ item.packageType ++ post)) ∧
    (∀ (customerId : String) (nowMs : Nat) (d : InvoiceData),
      (NetlifyZoho.invoicePayload customerId nowMs d).line_items =
        d.serviceItems.map NetlifyZoho.mkLineItem ∧
      (NetlifyZoho.invoicePayload customerId nowMs d).line_items.length =
        d.serviceItems.length ∧
      (NetlifyZoho.invoicePayload customerId nowMs d).dueDateDay =
        (NetlifyZoho.invoicePayload customerId nowMs d).dateDay + 30) ∧
    (∀ (customerId : String) (nowMs : Nat) (d : InvoiceData),
      (PayFn.invoicePayload customerId nowMs d).line_items =
        d.serviceItems.map PayFn.mkLineItem ∧
      (PayFn.invoicePayload customerId nowMs d).line_items.length =
        d.serviceItems.length ∧
      (PayFn.invoicePayload customerId nowMs d).dueDateDay =
        (PayFn.invoicePayload customerId nowMs d).dateDay + 30) ∧
    (∀ (nowMs : Nat) (d : InvoiceData),
      (SBZoho.invoicePayload nowMs d).line_items =
        d.serviceItems.map SBZoho.mkLineItem ∧
      (SBZoho.invoicePayload nowMs d).line_items.length = d.serviceItems.length ∧
      (SBZoho.invoicePayload nowMs d).dueDateDay =
        (SBZoho.invoicePayload nowMs d).dateDay + 30) ∧
    (∀ (customerId : String) (inv : VendorInvoice),
      NetlifyZoho.invoiceSummary customerId inv =
        [("invoice_id", .s inv.invoice_id),
         ("invoice_number", .s inv.invoice_number),
         ("payment_url", .s ("https://invoice.zoho.in/invoices/" ++ inv.invoice_id ++ "/payment")),
         ("total", .q inv.total),
         ("status", .s inv.status),
         ("customer_id", .s customerId)]) ∧
    (∀ inv : VendorInvoice,
      PayFn.invoiceSummary inv =
        [("invoice_id", .s inv.invoice_id),
         ("invoice_number", .s inv.invoice_number),
         ("payment_url", .s ("https://invoice.zoho.com/invoices/" ++ inv.invoice_id ++ "/payment")),
         ("total", .q inv.total),
         ("status", .s inv.status)]) ∧
    (∀ inv : VendorInvoice,
      SBZoho.invoiceSummary inv =
        [("invoice_id", .s inv.invoice_id),
         ("invoice_number", .s inv.invoice_number),
         ("payment_url", .s ("https://invoice.zoho.com/invoices/" ++ inv.invoice_id ++ "/payment")),
         ("total", .q inv.total),
         ("status", .s inv.status)]) := by
  refine ⟨?_, ?_, ?_, ?_, ?_, ?_, ?_, ?_, ?_⟩
  · intro item
    refine ⟨rfl, rfl, rfl, rfl,
      ⟨item.serviceName ++ " - ",
        " Package (Quantity: " ++ toString item.quantity ++ ")", ?_⟩⟩
    simp [NetlifyZoho.mkLineItem, String.append_assoc]
  · intro item
    exact ⟨rfl, rfl, rfl, rfl, ⟨item.serviceName ++ " - ", " Package", rfl⟩⟩
  · intro item
    refine ⟨rfl, rfl, rfl, rfl,
      ⟨item.serviceName ++ " - ",
        " Package (Quantity: " ++ toString item.quantity ++ ")", ?_⟩⟩
    simp [SBZoho.mkLineItem, String.append_assoc]
  · intro customerId nowMs d
    exact ⟨rfl, by simp [NetlifyZoho.invoicePayload], epochDay_add_thirty nowMs⟩
  · intro customerId nowMs d
    exact ⟨rfl, by simp [PayFn.invoicePayload], epochDay_add_thirty nowMs⟩
  · intro nowMs d
    exact ⟨rfl, by simp [SBZoho.invoicePayload], epochDay_add_thirty nowMs⟩
  · intro customerId inv; rfl
  · intro inv; rfl
  · intro inv; rfl

/-- C6 counterexample: the summary returned by the zohoIntegration
variant does not consist of exactly the five claimed fields — it carries a
sixth field, the customer id. -/
theorem invoiceReshaping_counterexample :
    (NetlifyZoho.invoiceSummary "200000000001" invoice0).map Prod.fst =
      ["invoice_id", "invoice_number", "payment_url", "total", "status", "customer_id"] ∧
    (NetlifyZoho.invoiceSummary "200000000001" invoice0).map Prod.fst ≠
      ["invoice_id", "invoice_number", "payment_url", "total", "status"] := by
  exact ⟨rfl, by decide⟩

/-- C7 (amended): every axios call of the Netlify handlers carries a fixed
constant timeout independent of the request input — 10 or 15 seconds for
token exchanges, 15 seconds for contact and status calls, 20 seconds for
invoice creation — while every fetch call of the Supabase handler carries
no timeout at all. -/
theorem fixedTimeouts_amended :
    NetlifyZoho.tokenRequest.timeout = some 10000 ∧
    NetlifyZoho.contactsCreateRequest.timeout = some 15000 ∧
    NetlifyZoho.contactsSearchRequest.timeout = some 15000 ∧
    NetlifyZoho.invoicesCreateRequest.timeout = some 20000 ∧
    (∀ invoiceId, (NetlifyZoho.invoiceStatusRequest invoiceId).timeout = some 15000) ∧
    NetlifyZohoB.tokenRequest.timeout = some 15000 ∧
    NetlifyZohoB.testConnectionRequest.timeout = some 15000 ∧
    NetlifyZohoB.contactsCreateRequest.timeout = some 15000 ∧
    NetlifyZohoB.contactsSearchRequest.timeout = some 15000 ∧
    NetlifyZohoB.invoicesCreateRequest.timeout = some 20000 ∧
    (∀ invoiceId, (NetlifyZohoB.invoiceStatusRequest invoiceId).timeout = some 15000) ∧
    PayFn.tokenRequest.timeout = some 10000 ∧
    PayFn.contactsCreateRequest.timeout = some 15000 ∧
    PayFn.contactsSearchRequest.timeout = some 15000 ∧
    PayFn.invoicesCreateRequest.timeout = some 20000 ∧
    ZohoTest.tokenRequest.timeout = some 10000 ∧
    ZohoTest.contactsProbeRequest.timeout = some 15000 ∧
    SBZoho.tokenRequest.timeout = none ∧
    SBZoho.contactsCreateRequest.timeout = none ∧
    (∀ email, (SBZoho.contactsSearchRequest email).timeout = none) ∧
    SBZoho.invoicesCreateRequest.timeout = none ∧
    (∀ invoiceId, (SBZoho.invoiceGetRequest invoiceId).timeout = none) :=
  ⟨rfl, rfl, rfl, rfl, fun _ => rfl, rfl, rfl, rfl, rfl, rfl, fun _ => rfl,
    rfl, rfl, rfl, rfl, rfl, rfl, rfl, rfl, fun _ => rfl, rfl, fun _ => rfl⟩

/-- C7 counterexample: the Supabase token-exchange call carries no timeout
at all, so the claim that every outbound call of every handler carries a
fixed 10-or-15-second (or 20-second) timeout fails. -/
theorem fixedTimeouts_counterexample :
    SBZoho.tokenRequest.timeout = none ∧
    SBZoho.tokenRequest.timeout ≠ some 10000 ∧
    SBZoho.tokenRequest.timeout ≠ some 15000 := by
  exact ⟨rfl, by decide, by decide⟩
